import Mathlib

/-!
Verification of the Flapster simulation core (src/script.js).

Shallow embedding conventions:
* JavaScript numbers are modelled as rational numbers (ℚ); every constant
  of CFG that the simulation uses is exactly representable.
* The pseudo-random draw of Math.random() is passed in as an explicit
  parameter r with 0 ≤ r < 1.
* localStorage is modelled as an Option String input at boot and a Boolean
  "write performed" output at death; a JavaScript NaN produced by parseInt
  is modelled as none.
* setTimeout(resetGame, 80) in handleFlap is modelled by returning the
  delay of the scheduled call (some 80) next to the unchanged state.
* Purely visual state (clouds, stars, ground scroll, star twinkle) is
  omitted: the spec scopes rendering out, and no simulation branch reads it.
-/

namespace Flapster

/-! ### §1 CONFIG (src/script.js lines 22-55) -/

def BIRD_X : ℚ := 90
def BIRD_RADIUS : ℚ := 14
def JUMP_VEL : ℚ := -17/2
def GRAVITY : ℚ := 21/50
def MAX_FALL_VEL : ℚ := 12
def TILT_UP : ℚ := -25
def TILT_DOWN : ℚ := 70
def PIPE_W : ℚ := 58
def PIPE_GAP : ℚ := 148
def PIPE_SPEED : ℚ := 13/5
def PIPE_SPAWN_X : ℚ := 420
def PIPE_INTERVAL : ℚ := 1700
def GROUND_Y : ℚ := 520
def WING_FRAMES : ℕ := 3
def WING_SPEED : ℚ := 120

/-! ### §2 STATE and §4 GAME OBJECTS -/

structure Bird where
  x : ℚ
  y : ℚ
  vy : ℚ
  angle : ℚ
  wingFrame : ℕ
  wingTimer : ℚ
  alive : Bool
  deathY : ℚ
  deathVY : ℚ
deriving DecidableEq

structure Pipe where
  x : ℚ
  gapTop : ℚ
  gapBot : ℚ
  scored : Bool
deriving DecidableEq

inductive Phase where
  | START
  | PLAYING
  | DEAD
deriving DecidableEq

structure GameState where
  phase : Phase
  bird : Bird
  pipes : List Pipe
  score : ℕ
  bestScore : ℤ
  lastPipeTime : ℚ
deriving DecidableEq

/-- createBird (lines 320-332). -/
def createBird : Bird :=
  { x := BIRD_X, y := 260, vy := 0, angle := 0, wingFrame := 0,
    wingTimer := 0, alive := true, deathY := 0, deathVY := 0 }

/-- createPipe (lines 335-347); r is the Math.random() draw, 0 ≤ r < 1. -/
def createPipe (r : ℚ) : Pipe :=
  let minTop : ℚ := 60
  let maxTop : ℚ := GROUND_Y - PIPE_GAP - 60
  let gapTop := minTop + r * (maxTop - minTop)
  { x := PIPE_SPAWN_X, gapTop := gapTop, gapBot := gapTop + PIPE_GAP,
    scored := false }

/-! ### §5 COLLISION DETECTION (lines 385-418) -/

/-- The circle-vs-two-rectangles test the pipe loop body performs
(lines 397-415), with its early return on the top-rectangle hit. -/
def pipeHit (b : Bird) (p : Pipe) : Bool :=
  let bx := b.x
  let byc := b.y
  let br := BIRD_RADIUS
  let px := p.x
  let pw := PIPE_W
  let nearTopX := max px (min bx (px + pw))
  let nearTopY := max 0 (min byc p.gapTop)
  let dTopX := bx - nearTopX
  let dTopY := byc - nearTopY
  if dTopX * dTopX + dTopY * dTopY < br * br then true
  else
    let nearBotX := max px (min bx (px + pw))
    let nearBotY := max p.gapBot (min byc GROUND_Y)
    let dBotX := bx - nearBotX
    let dBotY := byc - nearBotY
    decide (dBotX * dBotX + dBotY * dBotY < br * br)

/-- checkCollision (lines 385-418): ground, then ceiling, then pipes. -/
def checkCollision (b : Bird) (pipes : List Pipe) : Bool :=
  if GROUND_Y ≤ b.y + BIRD_RADIUS then true
  else if b.y - BIRD_RADIUS ≤ 0 then true
  else pipes.any (pipeHit b)

/-- Specification-level helper: squared distance from a point to the closest
point of the axis-aligned rectangle [x1, x2] × [y1, y2]. -/
def distSqPointRect (cx cy x1 y1 x2 y2 : ℚ) : ℚ :=
  let nx := max x1 (min cx x2)
  let ny := max y1 (min cy y2)
  (cx - nx) * (cx - nx) + (cy - ny) * (cy - ny)

/-! ### §6 CORE GAME LOOP (lines 436-503) -/

/-- Line 473: pipes[i].x -= CFG.PIPE_SPEED. -/
def movePipe (p : Pipe) : Pipe := { p with x := p.x - PIPE_SPEED }

/-- Lines 476-479: score the pipe once its right edge is strictly left of the
bird's x; the returned number is the score increment. -/
def scorePipe (p : Pipe) : Pipe × ℕ :=
  if p.scored = false ∧ p.x + PIPE_W < BIRD_X then
    ({ p with scored := true }, 1)
  else (p, 0)

/-- One iteration of the pipe loop body on one pipe, without removal:
movement (line 473) then the scoring check (lines 476-479). -/
def pipeTick (p : Pipe) : Pipe × ℕ := scorePipe (movePipe p)

/-- Full loop body for one pipe: movement, scoring, then removal
(lines 482-484); none means the pipe was spliced out. -/
def stepPipe (p : Pipe) : Option Pipe × ℕ :=
  let t := pipeTick p
  if t.1.x + PIPE_W < -20 then (none, t.2) else (some t.1, t.2)

/-- The whole pipe loop of update (lines 472-485): surviving pipes and the
total score increment.  The JavaScript loop iterates backwards and splices,
but each iteration touches only its own pipe, so the pass is per-pipe. -/
def tickPipes (ps : List Pipe) : List Pipe × ℕ :=
  (ps.filterMap (fun p => (stepPipe p).1),
   (ps.map (fun p => (stepPipe p).2)).sum)

/-- The lifetime of a single pipe across n ticks of the loop body
(movement + scoring), with the total score it contributed. -/
def pipeRun : ℕ → Pipe → Pipe × ℕ
  | 0, p => (p, 0)
  | n + 1, p =>
    let t := pipeTick p
    let u := pipeRun n t.1
    (u.1, t.2 + u.2)

/-- Bird physics, tilt and wing animation of update (lines 440-453). -/
def physicsStep (b : Bird) (dt : ℚ) : Bird :=
  let vy := min (b.vy + GRAVITY) MAX_FALL_VEL
  let y := b.y + vy
  let targetAngle := max TILT_UP (min TILT_DOWN (vy * 4))
  let angle := b.angle + (targetAngle - b.angle) * (18/100)
  let wingTimer := b.wingTimer + dt
  if WING_SPEED ≤ wingTimer then
    { b with vy := vy, y := y, angle := angle,
             wingFrame := (b.wingFrame + 1) % WING_FRAMES, wingTimer := 0 }
  else
    { b with vy := vy, y := y, angle := angle, wingTimer := wingTimer }

/-- killBird (lines 494-503).  The Boolean records whether
localStorage.setItem was performed. -/
def killBird (s : GameState) : GameState × Bool :=
  let s1 : GameState :=
    { s with bird := { s.bird with alive := false }, phase := Phase.DEAD }
  if s1.bestScore < (s1.score : ℤ) then
    ({ s1 with bestScore := (s1.score : ℤ) }, true)
  else (s1, false)

/-- update (lines 436-491); dt is the clamped frame delta, now the
performance.now() reading of line 465, r the Math.random() draw used if a
pipe spawns this tick. -/
def update (s : GameState) (dt now r : ℚ) : GameState :=
  if s.phase = Phase.PLAYING then
    let bird := physicsStep s.bird dt
    let spawn := PIPE_INTERVAL ≤ now - s.lastPipeTime
    let pipes0 := if spawn then s.pipes ++ [createPipe r] else s.pipes
    let lastT := if spawn then now else s.lastPipeTime
    let t := tickPipes pipes0
    let s1 : GameState :=
      { s with bird := bird, pipes := t.1, score := s.score + t.2,
               lastPipeTime := lastT }
    if checkCollision bird t.1 then (killBird s1).1 else s1
  else s

/-! ### §8 INPUT and §9 BOOT / RESET (lines 732-797) -/

/-- beginGame (lines 783-787). -/
def beginGame (s : GameState) (now : ℚ) : GameState :=
  { s with phase := Phase.PLAYING,
           bird := { s.bird with vy := JUMP_VEL },
           lastPipeTime := now + 800 }

/-- resetGame (lines 790-797); now is the performance.now() reading when the
deferred call finally runs. -/
def resetGame (s : GameState) (now : ℚ) : GameState :=
  { s with pipes := [], score := 0,
           bird := { createBird with vy := JUMP_VEL },
           phase := Phase.PLAYING,
           lastPipeTime := now + 800 }

/-- handleFlap (lines 732-750).  The second component is the delay of a
scheduled deferred resetGame call: in the DEAD branch the source runs
setTimeout(resetGame, 80), which fires unconditionally 80 ms later. -/
def handleFlap (s : GameState) (now : ℚ) : GameState × Option ℚ :=
  if s.phase = Phase.START then (beginGame s now, none)
  else if s.phase = Phase.DEAD then (s, some 80)
  else if s.phase = Phase.PLAYING ∧ s.bird.alive = true then
    ({ s with bird := { s.bird with vy := JUMP_VEL, angle := TILT_UP } },
     none)
  else (s, none)

/-- Value of a string of decimal digits, as parseInt accumulates it. -/
def digitsVal (ds : List Char) : ℕ :=
  ds.foldl (fun a c => a * 10 + (c.toNat - 48)) 0

/-- Leading-digit parse: none models the NaN parseInt returns when no
digit is found. -/
def parseIntDigits (cs : List Char) : Option ℤ :=
  let ds := cs.takeWhile Char.isDigit
  if ds.isEmpty then none else some (digitsVal ds : ℤ)

/-- JavaScript parseInt(s, 10): skip whitespace, optional sign, then leading
decimal digits; NaN (none) when no digit follows. -/
def parseIntJS (s : String) : Option ℤ :=
  let cs := s.toList.dropWhile Char.isWhitespace
  match cs with
  | '-' :: rest => (parseIntDigits rest).map (fun n => -n)
  | '+' :: rest => parseIntDigits rest
  | _ => parseIntDigits cs

/-- Boot-time best score (line 70):
parseInt(localStorage.getItem(flapster_best) || '0', 10).
The stored argument is the getItem result (none = key absent); the || '0'
substitution applies exactly to the falsy strings, i.e. null and "".
A none result models NaN reaching state.bestScore. -/
def initBestScore (stored : Option String) : Option ℤ :=
  let raw :=
    match stored with
    | none => "0"
    | some s => if s = "" then "0" else s
  parseIntJS raw

/-! ### Helper lemmas -/

theorem killBird_phase (s : GameState) : (killBird s).1.phase = Phase.DEAD := by
  unfold killBird
  dsimp only
  split <;> rfl

theorem killBird_alive (s : GameState) : (killBird s).1.bird.alive = false := by
  unfold killBird
  dsimp only
  split <;> rfl

theorem killBird_bird_vy (s : GameState) : (killBird s).1.bird.vy = s.bird.vy := by
  unfold killBird
  dsimp only
  split <;> rfl

theorem killBird_bird_y (s : GameState) : (killBird s).1.bird.y = s.bird.y := by
  unfold killBird
  dsimp only
  split <;> rfl

theorem physicsStep_vy (b : Bird) (dt : ℚ) :
    (physicsStep b dt).vy = min (b.vy + GRAVITY) MAX_FALL_VEL := by
  unfold physicsStep
  dsimp only
  split <;> rfl

theorem checkCollision_of_ground (b : Bird)
    (hb : GROUND_Y ≤ b.y + BIRD_RADIUS) (ps : List Pipe) :
    checkCollision b ps = true := by
  unfold checkCollision
  rw [if_pos hb]

theorem scorePipe_x (p : Pipe) : (scorePipe p).1.x = p.x := by
  unfold scorePipe
  split <;> rfl

theorem stepPipe_inc (p : Pipe) : (stepPipe p).2 = (pipeTick p).2 := by
  unfold stepPipe
  dsimp only
  split <;> rfl

theorem PIPE_SPEED_pos : (0:ℚ) < PIPE_SPEED := by norm_num [PIPE_SPEED]

theorem pipeTick_unscored_hit (x gt gb : ℚ)
    (h : x - PIPE_SPEED + PIPE_W < BIRD_X) :
    pipeTick ⟨x, gt, gb, false⟩ = (⟨x - PIPE_SPEED, gt, gb, true⟩, 1) := by
  unfold pipeTick movePipe scorePipe
  dsimp only
  rw [if_pos ⟨rfl, h⟩]

theorem pipeTick_unscored_miss (x gt gb : ℚ)
    (h : ¬(x - PIPE_SPEED + PIPE_W < BIRD_X)) :
    pipeTick ⟨x, gt, gb, false⟩ = (⟨x - PIPE_SPEED, gt, gb, false⟩, 0) := by
  unfold pipeTick movePipe scorePipe
  dsimp only
  rw [if_neg]
  rintro ⟨-, hc⟩
  exact h hc

theorem pipeTick_scored_any (x gt gb : ℚ) :
    pipeTick ⟨x, gt, gb, true⟩ = (⟨x - PIPE_SPEED, gt, gb, true⟩, 0) := by
  unfold pipeTick movePipe scorePipe
  dsimp only
  rw [if_neg]
  rintro ⟨hc, -⟩
  exact Bool.noConfusion hc

theorem pipeRun_zero (p : Pipe) : pipeRun 0 p = (p, 0) := rfl

theorem pipeRun_succ (n : ℕ) (p : Pipe) :
    pipeRun (n + 1) p
      = ((pipeRun n (pipeTick p).1).1,
         (pipeTick p).2 + (pipeRun n (pipeTick p).1).2) := rfl

theorem pipe_pair_eq {x1 x2 gt gb : ℚ} {sc : Bool} {c1 c2 : ℕ}
    (hx : x1 = x2) (hc : c1 = c2) :
    ((⟨x1, gt, gb, sc⟩ : Pipe), c1) = ((⟨x2, gt, gb, sc⟩ : Pipe), c2) := by
  rw [hx, hc]

theorem pipeRun_scored (n : ℕ) : ∀ x gt gb : ℚ,
    pipeRun n ⟨x, gt, gb, true⟩ = (⟨x - n * PIPE_SPEED, gt, gb, true⟩, 0) := by
  induction n with
  | zero =>
    intro x gt gb
    rw [pipeRun_zero]
    exact pipe_pair_eq (by push_cast; ring) rfl
  | succ m ih =>
    intro x gt gb
    rw [pipeRun_succ, pipeTick_scored_any]
    dsimp only
    rw [ih]
    exact pipe_pair_eq (by push_cast; ring) rfl

theorem pipeRun_unscored (m : ℕ) : ∀ x gt gb : ℚ,
    (x - (m + 1) * PIPE_SPEED + PIPE_W < BIRD_X →
      pipeRun (m + 1) ⟨x, gt, gb, false⟩
        = (⟨x - (m + 1) * PIPE_SPEED, gt, gb, true⟩, 1))
    ∧ (¬(x - (m + 1) * PIPE_SPEED + PIPE_W < BIRD_X) →
      pipeRun (m + 1) ⟨x, gt, gb, false⟩
        = (⟨x - (m + 1) * PIPE_SPEED, gt, gb, false⟩, 0)) := by
  induction m with
  | zero =>
    intro x gt gb
    constructor
    · intro h
      have h1 : x - PIPE_SPEED + PIPE_W < BIRD_X := by push_cast at h; linarith
      rw [pipeRun_succ, pipeTick_unscored_hit x gt gb h1]
      dsimp only
      rw [pipeRun_zero]
      exact pipe_pair_eq (by push_cast; ring) rfl
    · intro h
      have h1 : ¬(x - PIPE_SPEED + PIPE_W < BIRD_X) := by
        intro hc; apply h; push_cast; linarith
      rw [pipeRun_succ, pipeTick_unscored_miss x gt gb h1]
      dsimp only
      rw [pipeRun_zero]
      exact pipe_pair_eq (by push_cast; ring) rfl
  | succ m ih =>
    intro x gt gb
    have hm : (0:ℚ) ≤ ((m:ℚ) + 1) * PIPE_SPEED := by
      have hs := PIPE_SPEED_pos
      have hm0 : (0:ℚ) ≤ (m:ℚ) + 1 := by positivity
      nlinarith
    have hsplit : x - ((m:ℚ) + 1 + 1) * PIPE_SPEED + PIPE_W
        = (x - PIPE_SPEED + PIPE_W) - ((m:ℚ) + 1) * PIPE_SPEED := by ring
    by_cases hc : x - PIPE_SPEED + PIPE_W < BIRD_X
    · constructor
      · intro h
        rw [pipeRun_succ, pipeTick_unscored_hit x gt gb hc]
        dsimp only
        rw [pipeRun_scored (m + 1) (x - PIPE_SPEED) gt gb]
        exact pipe_pair_eq (by push_cast; ring) rfl
      · intro h
        exfalso
        apply h
        push_cast
        rw [hsplit]
        linarith
    · have step : pipeTick (⟨x, gt, gb, false⟩ : Pipe)
          = (⟨x - PIPE_SPEED, gt, gb, false⟩, 0) :=
        pipeTick_unscored_miss x gt gb hc
      constructor
      · intro h
        have hcond : (x - PIPE_SPEED) - ((m:ℚ) + 1) * PIPE_SPEED + PIPE_W < BIRD_X := by
          push_cast at h
          rw [hsplit] at h
          linarith
        rw [pipeRun_succ, step]
        dsimp only
        have hres := (ih (x - PIPE_SPEED) gt gb).1 (by linarith [hcond])
        rw [hres]
        exact pipe_pair_eq (by push_cast; ring) rfl
      · intro h
        have hcond : ¬((x - PIPE_SPEED) - ((m:ℚ) + 1) * PIPE_SPEED + PIPE_W < BIRD_X) := by
          intro hx
          apply h
          push_cast
          rw [hsplit]
          linarith
        rw [pipeRun_succ, step]
        dsimp only
        have hres := (ih (x - PIPE_SPEED) gt gb).2 (fun hx => hcond (by linarith [hx]))
        rw [hres]
        exact pipe_pair_eq (by push_cast; ring) rfl

theorem tickPipes_inc (ps : List Pipe) :
    (tickPipes ps).2 = (ps.map fun q => (pipeTick q).2).sum := by
  unfold tickPipes
  dsimp only
  simp only [stepPipe_inc]

/-! ### Claim theorems -/

/-- C1: each pipe is scored exactly once over its lifetime, by exactly 1, on
the first tick of the pipe loop after which its right edge (x + PIPE_W) is
strictly left of the bird's x (BIRD_X); the scored flag forbids any second
increment, and the tick's total score increment is the sum of the per-pipe
increments. -/
theorem score_increments_once_per_pipe (x gt gb : ℚ) (n : ℕ) (hn : 1 ≤ n) :
    ((pipeRun n ⟨x, gt, gb, false⟩).2
        = if x - n * PIPE_SPEED + PIPE_W < BIRD_X then 1 else 0)
    ∧ (pipeRun n ⟨x, gt, gb, true⟩).2 = 0
    ∧ ∀ ps : List Pipe,
        (tickPipes ps).2 = (ps.map fun q => (pipeTick q).2).sum := by
  obtain ⟨m, rfl⟩ : ∃ m, n = m + 1 := ⟨n - 1, by omega⟩
  refine ⟨?_, ?_, fun ps => tickPipes_inc ps⟩
  · push_cast
    by_cases hc : x - ((m:ℚ) + 1) * PIPE_SPEED + PIPE_W < BIRD_X
    · rw [(pipeRun_unscored m x gt gb).1 hc, if_pos hc]
    · rw [(pipeRun_unscored m x gt gb).2 hc, if_neg hc]
  · rw [pipeRun_scored]

theorem score_increments_once_per_pipe_witness :
    (pipeRun 1 (⟨30, 100, 248, false⟩ : Pipe)).2 = 1
    ∧ (pipeRun 1 (⟨30, 100, 248, true⟩ : Pipe)).2 = 0 := by
  obtain ⟨h1, h2, -⟩ := score_increments_once_per_pipe 30 100 248 1 (by norm_num)
  refine ⟨?_, h2⟩
  rw [h1, if_pos]
  norm_num [PIPE_SPEED, PIPE_W, BIRD_X]

theorem update_bird_of_playing (s : GameState) (dt now r : ℚ)
    (h : s.phase = Phase.PLAYING) :
    (update s dt now r).bird.vy = (physicsStep s.bird dt).vy
    ∧ (update s dt now r).bird.y = (physicsStep s.bird dt).y := by
  unfold update
  rw [if_pos h]
  dsimp only
  split <;> split
  <;> first
    | exact ⟨killBird_bird_vy _, killBird_bird_y _⟩
    | exact ⟨rfl, rfl⟩

/-- C2: on any PLAYING tick, if the avatar's bottom edge is at or below the
ground line after the physics step, the tick ends with phase DEAD and the
avatar's alive flag false. -/
theorem ground_hit_dies (s : GameState) (dt now r : ℚ)
    (h : s.phase = Phase.PLAYING)
    (hg : GROUND_Y ≤ (physicsStep s.bird dt).y + BIRD_RADIUS) :
    (update s dt now r).phase = Phase.DEAD
    ∧ (update s dt now r).bird.alive = false := by
  unfold update
  rw [if_pos h]
  dsimp only
  rw [checkCollision_of_ground _ hg]
  rw [if_pos rfl]
  exact ⟨killBird_phase _, killBird_alive _⟩

def groundedState : GameState :=
  { phase := Phase.PLAYING, bird := { createBird with y := 520 },
    pipes := [], score := 0, bestScore := 0, lastPipeTime := 0 }

theorem ground_hit_dies_witness :
    (update groundedState 16 0 0).phase = Phase.DEAD
    ∧ (update groundedState 16 0 0).bird.alive = false := by
  apply ground_hit_dies groundedState 16 0 0 rfl
  norm_num [physicsStep, groundedState, createBird, GRAVITY, MAX_FALL_VEL,
    WING_SPEED, GROUND_Y, BIRD_RADIUS, TILT_UP, TILT_DOWN, min_def, max_def]

/-- C3: killBird always moves the run to DEAD, leaves the best score at
max(previous best, score at death), and performs the localStorage write
exactly when the score at death strictly exceeds the previous best. -/
theorem best_score_on_death (s : GameState) :
    (killBird s).1.phase = Phase.DEAD
    ∧ (killBird s).1.bestScore = max s.bestScore (s.score : ℤ)
    ∧ ((killBird s).2 = true ↔ s.bestScore < (s.score : ℤ)) := by
  unfold killBird
  dsimp only
  split
  next hlt =>
    exact ⟨rfl, (max_eq_right hlt.le).symm, by simpa using hlt⟩
  next hge =>
    exact ⟨rfl, (max_eq_left (le_of_not_lt hge)).symm, by simpa using hge⟩

/-- C4: contrary to the claim, a stored best-score string with no parseable
leading integer does not default to zero: the boot line yields NaN
(modelled none), while only the absent key and the empty string (the falsy
cases the || catches) default to zero. -/
theorem malformed_best_not_defaulted :
    initBestScore (some "abc") = none
    ∧ initBestScore none = some 0
    ∧ initBestScore (some "") = some 0 := by decide

def deadState : GameState :=
  { phase := Phase.DEAD, bird := { createBird with alive := false },
    pipes := [⟨200, 100, 248, false⟩], score := 3, bestScore := 5,
    lastPipeTime := 0 }

/-- C5 counterexample: a flap handled while DEAD (here an arbitrarily short
time after death, before any debounce could elapse) is not ignored: it
schedules resetGame with an 80 ms delay, and when the deferred call fires
the run restarts - phase PLAYING, score 0, pipes cleared. -/
theorem dead_flap_restarts :
    (handleFlap deadState 1000).2 = some 80
    ∧ (resetGame (handleFlap deadState 1000).1 1080).phase = Phase.PLAYING
    ∧ (resetGame (handleFlap deadState 1000).1 1080).score = 0
    ∧ (resetGame (handleFlap deadState 1000).1 1080).pipes = [] :=
  ⟨rfl, rfl, rfl, rfl⟩

/-- C5 amended: every flap handled while the phase is DEAD leaves the state
unchanged at flap time but schedules a deferred resetGame call 80 ms ahead,
regardless of how little time has passed since death; when that call runs,
the run restarts: pipes cleared, score 0, fresh bird with the jump velocity,
phase PLAYING, and the spawn timer re-armed to fire 800 ms later. -/
theorem dead_flap_defers_reset (s : GameState) (now t : ℚ)
    (h : s.phase = Phase.DEAD) :
    (handleFlap s now).1 = s
    ∧ (handleFlap s now).2 = some 80
    ∧ (resetGame s t).phase = Phase.PLAYING
    ∧ (resetGame s t).score = 0
    ∧ (resetGame s t).pipes = []
    ∧ (resetGame s t).bird.vy = JUMP_VEL
    ∧ (resetGame s t).lastPipeTime = t + 800 := by
  have h1 : ¬(s.phase = Phase.START) := by
    rw [h]; exact fun hc => Phase.noConfusion hc
  unfold handleFlap
  rw [if_neg h1, if_pos h]
  exact ⟨rfl, rfl, rfl, rfl, rfl, rfl, rfl⟩

theorem dead_flap_defers_reset_witness :
    (handleFlap deadState 1000).1 = deadState
    ∧ (handleFlap deadState 1000).2 = some 80
    ∧ (resetGame deadState 1080).phase = Phase.PLAYING
    ∧ (resetGame deadState 1080).score = 0
    ∧ (resetGame deadState 1080).pipes = []
    ∧ (resetGame deadState 1080).bird.vy = JUMP_VEL
    ∧ (resetGame deadState 1080).lastPipeTime = 1080 + 800 :=
  dead_flap_defers_reset deadState 1000 1080 rfl

/-- C6: ground and ceiling checks are inclusive (at center y 500 the bottom
edge 514 clears groundY 520, at y 506 the bottom edge 520 collides), and the
per-pipe test fires exactly when the squared distance from the bird's center
to the closest point of the top or bottom rectangle is strictly below the
squared radius. -/
theorem collision_boundary_semantics :
    checkCollision { createBird with y := 500 } [] = false
    ∧ checkCollision { createBird with y := 506 } [] = true
    ∧ ∀ (b : Bird) (p : Pipe),
        (pipeHit b p = true ↔
          distSqPointRect b.x b.y p.x 0 (p.x + PIPE_W) p.gapTop
              < BIRD_RADIUS * BIRD_RADIUS
          ∨ distSqPointRect b.x b.y p.x p.gapBot (p.x + PIPE_W) GROUND_Y
              < BIRD_RADIUS * BIRD_RADIUS) := by
  refine ⟨?_, ?_, ?_⟩
  · norm_num [checkCollision, createBird, GROUND_Y, BIRD_RADIUS]
  · norm_num [checkCollision, createBird, GROUND_Y, BIRD_RADIUS]
  · intro b p
    unfold pipeHit distSqPointRect
    dsimp only
    split
    next hhit =>
      constructor
      · exact fun _ => Or.inl hhit
      · exact fun _ => rfl
    next hmiss =>
      rw [decide_eq_true_eq]
      constructor
      · exact fun hb => Or.inr hb
      · rintro (ha | hb)
        · exact absurd ha hmiss
        · exact hb

/-- C7: after any PLAYING tick the vertical velocity is clamped to at most
MAX_FALL_VEL, and a PLAYING-phase flap (the only other velocity write) also
keeps it at or below that bound. -/
theorem velocity_clamped (s : GameState) (dt now r : ℚ)
    (h : s.phase = Phase.PLAYING) :
    (update s dt now r).bird.vy ≤ MAX_FALL_VEL
    ∧ (s.bird.alive = true → (handleFlap s now).1.bird.vy ≤ MAX_FALL_VEL) := by
  constructor
  · rw [(update_bird_of_playing s dt now r h).1, physicsStep_vy]
    exact min_le_right _ _
  · intro ha
    have h1 : ¬(s.phase = Phase.START) := by
      rw [h]; exact fun hc => Phase.noConfusion hc
    have h2 : ¬(s.phase = Phase.DEAD) := by
      rw [h]; exact fun hc => Phase.noConfusion hc
    unfold handleFlap
    rw [if_neg h1, if_neg h2, if_pos ⟨h, ha⟩]
    dsimp only
    norm_num [JUMP_VEL, MAX_FALL_VEL]

def playingState : GameState :=
  { phase := Phase.PLAYING, bird := createBird, pipes := [], score := 0,
    bestScore := 0, lastPipeTime := 0 }

theorem velocity_clamped_witness :
    (update playingState 16 0 0).bird.vy ≤ MAX_FALL_VEL
    ∧ (handleFlap playingState 0).1.bird.vy ≤ MAX_FALL_VEL := by
  obtain ⟨h1, h2⟩ := velocity_clamped playingState 16 0 0 rfl
  exact ⟨h1, h2 rfl⟩

/-- C8: a flap handled while PLAYING with the avatar alive sets the vertical
velocity to exactly JUMP_VEL and snaps the tilt angle to TILT_UP, whatever
the prior velocity and angle were. -/
theorem flap_sets_velocity (s : GameState) (now : ℚ)
    (h : s.phase = Phase.PLAYING) (ha : s.bird.alive = true) :
    (handleFlap s now).1.bird.vy = JUMP_VEL
    ∧ (handleFlap s now).1.bird.angle = TILT_UP := by
  have h1 : ¬(s.phase = Phase.START) := by
    rw [h]; exact fun hc => Phase.noConfusion hc
  have h2 : ¬(s.phase = Phase.DEAD) := by
    rw [h]; exact fun hc => Phase.noConfusion hc
  unfold handleFlap
  rw [if_neg h1, if_neg h2, if_pos ⟨h, ha⟩]
  exact ⟨rfl, rfl⟩

theorem flap_sets_velocity_witness :
    (handleFlap playingState 0).1.bird.vy = JUMP_VEL
    ∧ (handleFlap playingState 0).1.bird.angle = TILT_UP :=
  flap_sets_velocity playingState 0 rfl rfl

theorem pipeTick_gap (p : Pipe) :
    (pipeTick p).1.gapTop = p.gapTop ∧ (pipeTick p).1.gapBot = p.gapBot := by
  unfold pipeTick scorePipe movePipe
  dsimp only
  split <;> exact ⟨rfl, rfl⟩

theorem pipeRun_gap (n : ℕ) : ∀ p : Pipe,
    (pipeRun n p).1.gapTop = p.gapTop ∧ (pipeRun n p).1.gapBot = p.gapBot := by
  induction n with
  | zero => exact fun p => ⟨rfl, rfl⟩
  | succ m ih =>
    intro p
    rw [pipeRun_succ]
    dsimp only
    obtain ⟨h1, h2⟩ := ih (pipeTick p).1
    obtain ⟨g1, g2⟩ := pipeTick_gap p
    exact ⟨h1.trans g1, h2.trans g2⟩

/-- C9: a spawned pipe's gap is exactly PIPE_GAP, its gapTop lies inside
[60, GROUND_Y - PIPE_GAP - 60], and every later tick of the pipe loop
preserves gapTop, gapBot, and hence the gap height. -/
theorem pipe_gap_invariant (r : ℚ) (h0 : 0 ≤ r) (h1 : r < 1) (n : ℕ) :
    (createPipe r).gapBot - (createPipe r).gapTop = PIPE_GAP
    ∧ 60 ≤ (createPipe r).gapTop
    ∧ (createPipe r).gapTop ≤ GROUND_Y - PIPE_GAP - 60
    ∧ (pipeRun n (createPipe r)).1.gapTop = (createPipe r).gapTop
    ∧ (pipeRun n (createPipe r)).1.gapBot = (createPipe r).gapBot
    ∧ (pipeRun n (createPipe r)).1.gapBot - (pipeRun n (createPipe r)).1.gapTop
        = PIPE_GAP := by
  obtain ⟨g1, g2⟩ := pipeRun_gap n (createPipe r)
  have e1 : (createPipe r).gapTop = 60 + r * 252 := by
    norm_num [createPipe, GROUND_Y, PIPE_GAP]
  have e2 : (createPipe r).gapBot = 60 + r * 252 + PIPE_GAP := by
    norm_num [createPipe, GROUND_Y, PIPE_GAP]
  refine ⟨by rw [e2, e1]; ring, by rw [e1]; linarith, ?_, g1, g2, ?_⟩
  · rw [e1]
    norm_num [GROUND_Y, PIPE_GAP]
    linarith
  · rw [g1, g2, e2, e1]
    ring

theorem pipe_gap_invariant_witness :
    (createPipe (1/2)).gapBot - (createPipe (1/2)).gapTop = PIPE_GAP
    ∧ 60 ≤ (createPipe (1/2)).gapTop
    ∧ (createPipe (1/2)).gapTop ≤ GROUND_Y - PIPE_GAP - 60
    ∧ (pipeRun 2 (createPipe (1/2))).1.gapTop = (createPipe (1/2)).gapTop
    ∧ (pipeRun 2 (createPipe (1/2))).1.gapBot = (createPipe (1/2)).gapBot
    ∧ (pipeRun 2 (createPipe (1/2))).1.gapBot
        - (pipeRun 2 (createPipe (1/2))).1.gapTop = PIPE_GAP :=
  pipe_gap_invariant (1/2) (by norm_num) (by norm_num) 2

/-- C10: any pipe whose right edge is strictly left of -20 after this tick's
movement (the removal condition) is scored by the same pass before the
splice—the removal line lies strictly left of the scoring line BIRD_X—so a
pipe is never removed unscored. -/
theorem removed_pipe_was_scored (p : Pipe)
    (h : (movePipe p).x + PIPE_W < -20) :
    (pipeTick p).1.scored = true ∧ (stepPipe p).1 = none := by
  have hx : (movePipe p).x + PIPE_W < BIRD_X := by
    have hb : (-20:ℚ) < BIRD_X := by norm_num [BIRD_X]
    linarith
  have hsc : (pipeTick p).1.scored = true := by
    unfold pipeTick scorePipe
    split
    · rfl
    next hcond =>
      rcases hb : (movePipe p).scored with _ | _
      · exact absurd ⟨hb, hx⟩ hcond
      · rfl
  have hx2 : (pipeTick p).1.x + PIPE_W < -20 := by
    show (scorePipe (movePipe p)).1.x + PIPE_W < -20
    rw [scorePipe_x]
    exact h
  refine ⟨hsc, ?_⟩
  unfold stepPipe
  rw [if_pos hx2]

theorem removed_pipe_was_scored_witness :
    (pipeTick (⟨-100, 100, 248, false⟩ : Pipe)).1.scored = true
    ∧ (stepPipe (⟨-100, 100, 248, false⟩ : Pipe)).1 = none :=
  removed_pipe_was_scored ⟨-100, 100, 248, false⟩
    (by norm_num [movePipe, PIPE_SPEED, PIPE_W])

end Flapster
